import Mathlib

/-
Verification of the preference-driven presentation mapper in
src/AutismFriendlySite.jsx: the Preference State record, its setters and
presets, the theme/font style effect, and the visibility/animation flags of
the decorative render tree, embedded shallowly as pure Lean functions.
-/

/-- The Preference State: the five useState cells of AutismFriendlySite
(lines 22-26): theme (a string, one of calm / ocean / contrast in the UI),
fontSize, reduceMotion, simplified, sparklesOn. -/
structure PrefState where
  theme : String
  fontSize : Int
  reduceMotion : Bool
  simplified : Bool
  sparklesOn : Bool
deriving Repr, DecidableEq

/-- Initial state from the useState initializers:
calm theme, font size 16, reduceMotion false, simplified false, sparkles on. -/
def initialState : PrefState :=
  { theme := "calm", fontSize := 16, reduceMotion := false,
    simplified := false, sparklesOn := true }

/-- Raw setter for theme: a useState setter updates only its own cell. -/
def setTheme (st : PrefState) (t : String) : PrefState :=
  { st with theme := t }

/-- Raw setter for fontSize. The font-size range input onChange (line 124)
is exactly setFontSize applied to the numeric value of the control: no
clamping or validation appears in the handler. -/
def setFontSize (st : PrefState) (n : Int) : PrefState :=
  { st with fontSize := n }

/-- Raw setter for reduceMotion. -/
def setReduceMotion (st : PrefState) (b : Bool) : PrefState :=
  { st with reduceMotion := b }

/-- Raw setter for simplified. -/
def setSimplified (st : PrefState) (b : Bool) : PrefState :=
  { st with simplified := b }

/-- Raw setter for sparklesOn. -/
def setSparklesOn (st : PrefState) (b : Bool) : PrefState :=
  { st with sparklesOn := b }

/-- The sparkles button (line 89) calls setSparklesOn with the negation of
the current value: a functional update, not a constant setter. -/
def sparklesButtonClick (st : PrefState) : PrefState :=
  setSparklesOn st (!st.sparklesOn)

/-- The Quiet Mode button (line 145) runs, in order:
setSimplified(true); setReduceMotion(true); setSparklesOn(false). -/
def quietMode (st : PrefState) : PrefState :=
  setSparklesOn (setReduceMotion (setSimplified st true) true) false

/-- The Playful Mode button (line 146) runs, in order:
setSimplified(false); setReduceMotion(false); setSparklesOn(true). -/
def playfulMode (st : PrefState) : PrefState :=
  setSparklesOn (setReduceMotion (setSimplified st false) false) true

/-- The mount effect (lines 28-32): it reads the media query
(prefers-reduced-motion: reduce) and, if it matches, calls
setReduceMotion(true); otherwise it does nothing. -/
def mountEffect (prefersReducedMotion : Bool) (st : PrefState) : PrefState :=
  if prefersReducedMotion then setReduceMotion st true else st

/-- The state right after mount: the initial state with the mount effect
applied once (the effect has an empty dependency array, so React runs it
exactly once). -/
def stateAfterMount (prefersReducedMotion : Bool) : PrefState :=
  mountEffect prefersReducedMotion initialState

/-- The discrete input events the component reacts to. The component
installs handlers only on its own controls; the mount effect has an empty
dependency array and adds no listener to the media query, so a later change
of the system reduced-motion signal reaches no handler. -/
inductive UiEvent where
  | themeButton (t : String)
  | fontSlider (n : Int)
  | reduceMotionCheckbox (b : Bool)
  | simplifiedCheckbox (b : Bool)
  | sparklesButton
  | quietButton
  | playfulButton
  | systemSignalChange (b : Bool)
deriving Repr, DecidableEq

/-- One event step of the component after mount. systemSignalChange is a
no-op because the code registers no listener on the media query. -/
def step (st : PrefState) : UiEvent → PrefState
  | .themeButton t => setTheme st t
  | .fontSlider n => setFontSize st n
  | .reduceMotionCheckbox b => setReduceMotion st b
  | .simplifiedCheckbox b => setSimplified st b
  | .sparklesButton => sparklesButtonClick st
  | .quietButton => quietMode st
  | .playfulButton => playfulMode st
  | .systemSignalChange _ => st

/-- The CSS custom properties written on document.documentElement by the
theme effect: background, muted/foreground, accent, and the font size
variable. Each field holds the last value written. -/
structure DocStyle where
  bg : String
  muted : String
  accent : String
  siteFontSize : Int
deriving Repr, DecidableEq

/-- The theme effect (lines 34-52): always writes the font-size variable,
then dispatches on the theme string through an if / else-if chain with no
default branch; an unrecognized theme writes no palette properties. -/
def themeEffect (theme : String) (fontSize : Int) (root : DocStyle) : DocStyle :=
  let root1 := { root with siteFontSize := fontSize }
  if theme = "calm" then
    { root1 with bg := "#fffef6", muted := "#52606d", accent := "#7cc0e8" }
  else if theme = "ocean" then
    { root1 with bg := "#eef9ff", muted := "#0e3b57", accent := "#00a6d6" }
  else if theme = "contrast" then
    { root1 with bg := "#000000", muted := "#ffffff", accent := "#ffd60a" }
  else root1

/-- Render output of DecorativeCat (lines 200-229): the cat body (ellipse,
face, ear, eyes, tail) is emitted unconditionally; the inline sparkle group
is emitted only when NOT simplified AND sparklesOn AND NOT reduceMotion
(line 219). -/
structure CatView where
  bodyVisible : Bool
  sparkleGroupVisible : Bool
deriving Repr, DecidableEq

def DecorativeCat (simplified reduceMotion sparklesOn : Bool) : CatView :=
  { bodyVisible := true,
    sparkleGroupVisible := !simplified && sparklesOn && !reduceMotion }

/-- Render output of DecorativeMoon (lines 231-250): the moon disc is
emitted unconditionally; the small crater circle only when NOT simplified
(line 242). The reduceMotion prop is received but never used. -/
structure MoonView where
  bodyVisible : Bool
  craterVisible : Bool
deriving Repr, DecidableEq

def DecorativeMoon (simplified _reduceMotion : Bool) : MoonView :=
  { bodyVisible := true, craterVisible := !simplified }

/-- Render output of DecorativeShark (lines 252-271): the shark body is
emitted unconditionally; the inline sparkle group only when NOT simplified
AND sparklesOn AND NOT reduceMotion (line 262). -/
structure SharkView where
  bodyVisible : Bool
  sparkleGroupVisible : Bool
deriving Repr, DecidableEq

def DecorativeShark (simplified reduceMotion sparklesOn : Bool) : SharkView :=
  { bodyVisible := true,
    sparkleGroupVisible := !simplified && sparklesOn && !reduceMotion }

/-- Render output of OceanWaves (lines 273-300): when simplified it returns
a plain gradient div with no wave svg and no animate element; otherwise the
wave path is emitted and the svg animate element only when NOT reduceMotion
(line 286). -/
structure WavesView where
  waveVisible : Bool
  animateElementPresent : Bool
deriving Repr, DecidableEq

def OceanWaves (simplified reduceMotion : Bool) : WavesView :=
  if simplified then
    { waveVisible := false, animateElementPresent := false }
  else
    { waveVisible := true, animateElementPresent := !reduceMotion }

/-- Render output of Sparkles (lines 302-324): four fixed-position sparkle
svgs, plus the floaty keyframes style element only when NOT reduceMotion
(line 316). -/
structure SparklesView where
  sparkleCount : Nat
  floatyKeyframesPresent : Bool
deriving Repr, DecidableEq

def Sparkles (reduceMotion : Bool) : SparklesView :=
  { sparkleCount := 4, floatyKeyframesPresent := !reduceMotion }

/-- The decorative parts of the page render tree. pageSparkles is the
full-page Sparkles overlay, mounted only when NOT simplified AND sparklesOn
(line 195); none means it is absent from the tree. -/
structure PageView where
  cat : CatView
  moon : MoonView
  shark : SharkView
  waves : WavesView
  pageSparkles : Option SparklesView
deriving Repr, DecidableEq

/-- The render function of AutismFriendlySite restricted to the decorative
tree: every decorative component is mounted unconditionally (lines 172-186)
except the full-page Sparkles overlay (line 195). -/
def render (st : PrefState) : PageView :=
  { cat := DecorativeCat st.simplified st.reduceMotion st.sparklesOn,
    moon := DecorativeMoon st.simplified st.reduceMotion,
    shark := DecorativeShark st.simplified st.reduceMotion st.sparklesOn,
    waves := OceanWaves st.simplified st.reduceMotion,
    pageSparkles :=
      if !st.simplified && st.sparklesOn then some (Sparkles st.reduceMotion)
      else none }

/-- The floaty keyframes style element is in the document exactly when the
Sparkles overlay is mounted and itself emits the style. -/
def PageView.floatyStyleInDoc (p : PageView) : Bool :=
  match p.pageSparkles with
  | some v => v.floatyKeyframesPresent
  | none => false

/-- Modelled from the spec: clamping to the nearest bound of the interval
[14, 28]. No clamping code exists in the source; this definition follows
the words of the spec for comparison with the actual handler. -/
def specClamp (n : Int) : Int := max 14 (min 28 n)

/-- Claim C1, counterexample: the claim that every numeric input to the
font-size handler is applied clamped to [14, 28] is false: at input 40 the
handler applies 40 itself, while the clamp of 40 is 28. -/
theorem fontSize_clamp_refuted :
    ¬ (∀ (st : PrefState) (n : Int), (setFontSize st n).fontSize = specClamp n) :=
  fun h => absurd (h initialState 40) (by decide)

/-- Claim C1 (amended): the font-size onChange handler applies its numeric
input unmodified; the [14, 28] bound comes only from the range control
(min 14, max 28), so for every in-range input the applied value coincides
with the clamp to [14, 28]. -/
theorem fontSize_onChange_raw (st : PrefState) (n : Int)
    (h1 : 14 ≤ n) (h2 : n ≤ 28) :
    (setFontSize st n).fontSize = n ∧ (setFontSize st n).fontSize = specClamp n := by
  refine ⟨rfl, ?_⟩
  simp only [setFontSize, specClamp]
  omega

/-- Claim C1, witness for the amended theorem at input 20. -/
theorem fontSize_onChange_raw_witness :
    (setFontSize initialState 20).fontSize = 20 ∧
    (setFontSize initialState 20).fontSize = specClamp 20 :=
  fontSize_onChange_raw initialState 20 (by decide) (by decide)

/-- Claim C2: at the state with simplified = true (and reduceMotion false,
sparkles on), the cat, shark and moon bodies are still rendered, refuting
the claim that simplified hides every decorative element; this contradicts
the source file comment that decorative SVGs hide when simplified is on. -/
theorem simplified_true_bodies_still_visible :
    (render { theme := "calm", fontSize := 16, reduceMotion := false,
              simplified := true, sparklesOn := true }).cat.bodyVisible = true ∧
    (render { theme := "calm", fontSize := 16, reduceMotion := false,
              simplified := true, sparklesOn := true }).shark.bodyVisible = true ∧
    (render { theme := "calm", fontSize := 16, reduceMotion := false,
              simplified := true, sparklesOn := true }).moon.bodyVisible = true := by
  refine ⟨rfl, rfl, rfl⟩

/-- Claim C3, counterexample: the claim that decoration visibility does not
depend on reduceMotion is false: with simplified = false and sparklesOn =
true but reduceMotion = true, the inline sparkle group of the cat is not
rendered, though the claimed rule makes it visible. -/
theorem visibility_rule_refuted :
    ¬ (∀ st : PrefState,
        (render st).cat.sparkleGroupVisible = (!st.simplified && st.sparklesOn)) :=
  fun h =>
    absurd
      (h { theme := "calm", fontSize := 16, reduceMotion := true,
           simplified := false, sparklesOn := true })
      (by decide)

/-- Claim C3 (amended): per-element visibility as the code computes it:
the cat, moon and shark bodies are always visible regardless of all flags;
the moon crater and the ocean wave are visible iff not simplified; the
full-page sparkles overlay is mounted iff not simplified and sparklesOn;
the inline sparkle groups of cat and shark are visible iff not simplified
and sparklesOn and not reduceMotion. -/
theorem visibility_per_element :
    ∀ st : PrefState,
      (render st).cat.bodyVisible = true ∧
      (render st).moon.bodyVisible = true ∧
      (render st).shark.bodyVisible = true ∧
      (render st).moon.craterVisible = !st.simplified ∧
      (render st).waves.waveVisible = !st.simplified ∧
      (render st).pageSparkles.isSome = (!st.simplified && st.sparklesOn) ∧
      (render st).cat.sparkleGroupVisible
        = (!st.simplified && st.sparklesOn && !st.reduceMotion) ∧
      (render st).shark.sparkleGroupVisible
        = (!st.simplified && st.sparklesOn && !st.reduceMotion) := by
  intro st
  obtain ⟨t, f, rm, si, sp⟩ := st
  cases si <;> cases sp <;> cases rm <;>
    simp [render, DecorativeCat, DecorativeMoon, DecorativeShark, OceanWaves]

/-- Claim C4: whenever reduceMotion is true, no animation construct is in
the rendered output: the svg animate element of the ocean waves is absent
and the floaty keyframes style of the sparkles overlay is absent. These two
are the only animation constructs in the source file. -/
theorem reduceMotion_no_animation :
    ∀ st : PrefState, st.reduceMotion = true →
      (render st).waves.animateElementPresent = false ∧
      (render st).floatyStyleInDoc = false := by
  intro st h
  obtain ⟨t, f, rm, si, sp⟩ := st
  subst h
  cases si <;> cases sp <;>
    simp [render, PageView.floatyStyleInDoc, OceanWaves, Sparkles]

/-- Claim C4, witness at a state with reduceMotion true and everything
visible. -/
theorem reduceMotion_no_animation_witness :
    (render { theme := "calm", fontSize := 16, reduceMotion := true,
              simplified := false, sparklesOn := true }).waves.animateElementPresent = false ∧
    (render { theme := "calm", fontSize := 16, reduceMotion := true,
              simplified := false, sparklesOn := true }).floatyStyleInDoc = false :=
  reduceMotion_no_animation
    { theme := "calm", fontSize := 16, reduceMotion := true,
      simplified := false, sparklesOn := true } rfl

/-- Claim C5: for each of the three themes the theme effect writes exactly
the fixed palette, independent of the font size and of the previously
applied style: calm gives (#fffef6, #52606d, #7cc0e8), ocean gives
(#eef9ff, #0e3b57, #00a6d6), contrast gives (#000000, #ffffff, #ffd60a). -/
theorem theme_palette_table :
    ∀ (fs : Int) (root : DocStyle),
      (themeEffect "calm" fs root).bg = "#fffef6" ∧
      (themeEffect "calm" fs root).muted = "#52606d" ∧
      (themeEffect "calm" fs root).accent = "#7cc0e8" ∧
      (themeEffect "ocean" fs root).bg = "#eef9ff" ∧
      (themeEffect "ocean" fs root).muted = "#0e3b57" ∧
      (themeEffect "ocean" fs root).accent = "#00a6d6" ∧
      (themeEffect "contrast" fs root).bg = "#000000" ∧
      (themeEffect "contrast" fs root).muted = "#ffffff" ∧
      (themeEffect "contrast" fs root).accent = "#ffd60a" := by
  intro fs root
  simp [themeEffect]

/-- Claim C6: from every prior state, Quiet Mode yields simplified = true,
reduceMotion = true, sparklesOn = false and Playful Mode yields simplified
= false, reduceMotion = false, sparklesOn = true; both presets are
idempotent and leave theme and fontSize unchanged. -/
theorem presets_quiet_playful :
    ∀ st : PrefState,
      quietMode st
        = { st with simplified := true, reduceMotion := true, sparklesOn := false } ∧
      playfulMode st
        = { st with simplified := false, reduceMotion := false, sparklesOn := true } ∧
      quietMode (quietMode st) = quietMode st ∧
      playfulMode (playfulMode st) = playfulMode st ∧
      (quietMode st).theme = st.theme ∧
      (quietMode st).fontSize = st.fontSize ∧
      (playfulMode st).theme = st.theme ∧
      (playfulMode st).fontSize = st.fontSize := by
  intro st
  obtain ⟨t, f, rm, si, sp⟩ := st
  simp [quietMode, playfulMode, setSimplified, setReduceMotion, setSparklesOn]

/-- Claim C7: the state right after mount has the default theme calm, font
size 16, simplified false, sparkles on, and reduceMotion equal to the
reduced-motion signal read at mount; and a later change of the system
signal is a no-op on every state, because the mount effect runs once and
installs no media-query listener. -/
theorem mount_seed_defaults :
    ∀ signal : Bool,
      stateAfterMount signal
        = { theme := "calm", fontSize := 16, reduceMotion := signal,
            simplified := false, sparklesOn := true } ∧
      ∀ (later : Bool) (st : PrefState),
        step st (UiEvent.systemSignalChange later) = st := by
  intro signal
  constructor
  · cases signal <;> simp [stateAfterMount, mountEffect, initialState, setReduceMotion]
  · intro later st
    rfl

/-- Claim C8: each raw setter changes only its own field of the Preference
State and leaves the other four fields unchanged. -/
theorem setters_frame :
    ∀ (st : PrefState) (t : String) (n : Int) (b : Bool),
      ((setTheme st t).theme = t ∧ (setTheme st t).fontSize = st.fontSize ∧
        (setTheme st t).reduceMotion = st.reduceMotion ∧
        (setTheme st t).simplified = st.simplified ∧
        (setTheme st t).sparklesOn = st.sparklesOn) ∧
      ((setFontSize st n).fontSize = n ∧ (setFontSize st n).theme = st.theme ∧
        (setFontSize st n).reduceMotion = st.reduceMotion ∧
        (setFontSize st n).simplified = st.simplified ∧
        (setFontSize st n).sparklesOn = st.sparklesOn) ∧
      ((setReduceMotion st b).reduceMotion = b ∧
        (setReduceMotion st b).theme = st.theme ∧
        (setReduceMotion st b).fontSize = st.fontSize ∧
        (setReduceMotion st b).simplified = st.simplified ∧
        (setReduceMotion st b).sparklesOn = st.sparklesOn) ∧
      ((setSimplified st b).simplified = b ∧
        (setSimplified st b).theme = st.theme ∧
        (setSimplified st b).fontSize = st.fontSize ∧
        (setSimplified st b).reduceMotion = st.reduceMotion ∧
        (setSimplified st b).sparklesOn = st.sparklesOn) ∧
      ((setSparklesOn st b).sparklesOn = b ∧
        (setSparklesOn st b).theme = st.theme ∧
        (setSparklesOn st b).fontSize = st.fontSize ∧
        (setSparklesOn st b).reduceMotion = st.reduceMotion ∧
        (setSparklesOn st b).simplified = st.simplified) := by
  intro st t n b
  refine ⟨⟨rfl, rfl, rfl, rfl, rfl⟩, ⟨rfl, rfl, rfl, rfl, rfl⟩,
    ⟨rfl, rfl, rfl, rfl, rfl⟩, ⟨rfl, rfl, rfl, rfl, rfl⟩,
    ⟨rfl, rfl, rfl, rfl, rfl⟩⟩

/-- Claim C9: one click of the sparkles button negates sparklesOn and two
consecutive clicks restore the whole prior state: the toggle is an
involution. -/
theorem sparkles_toggle_involution :
    ∀ st : PrefState,
      (sparklesButtonClick st).sparklesOn = !st.sparklesOn ∧
      sparklesButtonClick (sparklesButtonClick st) = st := by
  intro st
  obtain ⟨t, f, rm, si, sp⟩ := st
  cases sp <;> simp [sparklesButtonClick, setSparklesOn]

/-- Claim C10: for a theme string outside calm / ocean / contrast the theme
effect writes the font-size variable but none of the palette variables, so
background, muted and accent keep their previously applied values. -/
theorem unknown_theme_keeps_palette :
    ∀ (t : String) (n : Int) (root : DocStyle),
      t ≠ "calm" → t ≠ "ocean" → t ≠ "contrast" →
      themeEffect t n root = { root with siteFontSize := n } := by
  intro t n root h1 h2 h3
  simp [themeEffect, h1, h2, h3]

/-- Claim C10, witness at the unrecognized theme string neon: the calm
palette previously applied stays, while the font size variable updates. -/
theorem unknown_theme_keeps_palette_witness :
    themeEffect "neon" 20
        { bg := "#fffef6", muted := "#52606d", accent := "#7cc0e8", siteFontSize := 16 }
      = { bg := "#fffef6", muted := "#52606d", accent := "#7cc0e8", siteFontSize := 20 } :=
  unknown_theme_keeps_palette "neon" 20
    { bg := "#fffef6", muted := "#52606d", accent := "#7cc0e8", siteFontSize := 16 }
    (by decide) (by decide) (by decide)
